import Mathlib

/-!
Shallow embedding of the Epic Games client core
(`epic_games_bot_updated/epic_games_bot/epic_games_bot/epic.py`,
class `EpicGamesClient`): credential state, token-expiry check, refresh,
login, free-game discovery and the claim transaction.  Network I/O is
modelled by passing each endpoint's response as an explicit
`HttpResult` argument and recording every outgoing request (and every
persistence write) in an event trace returned alongside the result.
-/

namespace EpicGames

/-- Outcome of one HTTP request as the Python code observes it:
a `requests` exception (`transportError`), or a response carrying a
status code and, when `response.json()` parses, a body (`body = none`
models `response.json()` raising, which the code catches). -/
inductive HttpResult (α : Type) where
  | transportError : HttpResult α
  | response (status : Nat) (body : Option α) : HttpResult α
deriving Repr, DecidableEq

/-- The client's credential fields (`self.access_token`,
`self.refresh_token`, `self.account_id`, `self.expires_at`).
String fields are `Option` because the Python attributes can be `None`. -/
structure Cred where
  access_token : Option String
  refresh_token : Option String
  account_id : Option String
  expires_at : Int
deriving Repr, DecidableEq

/-- Python truthiness of an optional string: `None` and `""` are falsy,
as in the code's `if not self.access_token` / `not all([...])` checks. -/
def pyTruthy : Option String → Bool
  | none => false
  | some s => !(s == "")

/-- `_is_token_expired`: `time.time() >= (self.expires_at - 300)`. -/
def is_token_expired (c : Cred) (now : Int) : Bool :=
  decide (c.expires_at - 300 ≤ now)

/-- Body of a token-endpoint response (`/id/api/oauth/token`), with the
fields the code reads via `token_data.get(...)`. -/
structure TokenBody where
  access_token : Option String
  refresh_token : Option String
  account_id : Option String
  expires_in : Option Int
deriving Repr, DecidableEq

/-- Observable actions of one client call: outgoing requests per
endpoint, plus the two persistence writes (`_save_session`,
`_save_claimed_games`). -/
inductive Event where
  | loginPost
  | redirectGet
  | tokenPost
  | catalogGet
  | graphqlPost
  | saveSession
  | saveClaimed
deriving Repr, DecidableEq

/-- `_refresh_access_token`: no refresh token means an immediate `False`
with no request; otherwise one POST to the token endpoint; on HTTP 200
with parseable JSON the credential fields are overwritten (`account_id`
is not touched by this method) and the session is saved; every other
outcome returns `False` leaving the credential as it was. -/
def refresh_access_token (c : Cred) (now : Int) (resp : HttpResult TokenBody) :
    Bool × Cred × List Event :=
  if !pyTruthy c.refresh_token then (false, c, [])
  else
    match resp with
    | .transportError => (false, c, [Event.tokenPost])
    | .response status body =>
      if status == 200 then
        match body with
        | none => (false, c, [Event.tokenPost])
        | some tb =>
          let c' : Cred :=
            { access_token := tb.access_token
              refresh_token := tb.refresh_token
              account_id := c.account_id
              expires_at := now + tb.expires_in.getD 28800 }
          (true, c', [Event.tokenPost, Event.saveSession])
      else (false, c, [Event.tokenPost])

/-- Result of `ensure_authenticated`, with `refreshCalls` counting how
many times `_refresh_access_token` was invoked during the call. -/
structure EnsureResult where
  ok : Bool
  cred : Cred
  refreshCalls : Nat
  events : List Event
deriving Repr, DecidableEq

/-- `ensure_authenticated`: falsy access token → `False` at once;
expired token → the result of a single `_refresh_access_token` call;
otherwise `True` with no request. -/
def ensure_authenticated (c : Cred) (now : Int) (refreshResp : HttpResult TokenBody) :
    EnsureResult :=
  if !pyTruthy c.access_token then ⟨false, c, 0, []⟩
  else if is_token_expired c now then
    let res := refresh_access_token c now refreshResp
    ⟨res.1, res.2.1, 1, res.2.2⟩
  else ⟨true, c, 0, []⟩

/-- Body of the login-endpoint response, with the fields the code reads:
`login_response.get('twoFactorRequired', False)` and
`login_response.get('method')`. -/
structure LoginBody where
  twoFactorRequired : Option Bool
  method : Option String
deriving Repr, DecidableEq

/-- Body of the redirect-endpoint response:
`redirect_data.get('redirectUrl', '')`. -/
structure RedirectBody where
  redirectUrl : Option String
deriving Repr, DecidableEq

/-- The code-extraction expression
`url.split('code=')[1].split('&')[0]`: `none` models the `IndexError`
raised when `'code='` does not occur in the URL (caught by the
surrounding `except`). -/
def extractCode (s : String) : Option String :=
  match s.splitOn "code=" with
  | _ :: x :: _ => some ((x.splitOn "&").headD "")
  | _ => none

/-- `login(username, password)`, returning the Python tuple
`(success, 2fa_method)` together with the updated credential and the
event trace.  The flow: POST to the login endpoint; on HTTP 200 with a
body whose `twoFactorRequired` is truthy, return `(False, method)`;
otherwise GET the redirect, extract the authorization code, POST the
token exchange, and on HTTP 200 populate the credential fields
(`expires_at = now + expires_in`, defaulting to 28800) and save the
session before returning `(True, None)`.  Every other outcome — a
transport exception, a non-200 status at any step, an unparseable body,
or a failed code extraction — falls through to `(False, None)` with
the credential untouched. -/
def login (c : Cred) (now : Int)
    (loginResp : HttpResult LoginBody)
    (redirectResp : HttpResult RedirectBody)
    (tokenResp : HttpResult TokenBody) :
    (Bool × Option String) × Cred × List Event :=
  match loginResp with
  | .transportError => ((false, none), c, [Event.loginPost])
  | .response status body =>
    if status == 200 then
      match body with
      | none => ((false, none), c, [Event.loginPost])
      | some lb =>
        if lb.twoFactorRequired.getD false then
          ((false, lb.method), c, [Event.loginPost])
        else
          match redirectResp with
          | .transportError =>
            ((false, none), c, [Event.loginPost, Event.redirectGet])
          | .response rstatus rbody =>
            if rstatus == 200 then
              match rbody with
              | none =>
                ((false, none), c, [Event.loginPost, Event.redirectGet])
              | some rb =>
                match extractCode (rb.redirectUrl.getD "") with
                | none =>
                  ((false, none), c, [Event.loginPost, Event.redirectGet])
                | some _code =>
                  match tokenResp with
                  | .transportError =>
                    ((false, none), c,
                      [Event.loginPost, Event.redirectGet, Event.tokenPost])
                  | .response tstatus tbody =>
                    if tstatus == 200 then
                      match tbody with
                      | none =>
                        ((false, none), c,
                          [Event.loginPost, Event.redirectGet, Event.tokenPost])
                      | some tb =>
                        let c' : Cred :=
                          { access_token := tb.access_token
                            refresh_token := tb.refresh_token
                            account_id := tb.account_id
                            expires_at := now + tb.expires_in.getD 28800 }
                        ((true, none), c',
                          [Event.loginPost, Event.redirectGet, Event.tokenPost,
                            Event.saveSession])
                    else
                      ((false, none), c,
                        [Event.loginPost, Event.redirectGet, Event.tokenPost])
            else ((false, none), c, [Event.loginPost, Event.redirectGet])
    else ((false, none), c, [Event.loginPost])

/-- `price.totalPrice.discountPrice` nesting of a catalog entry; each
level is `Option` because the code defaults every missing level
(`item.get('price', {}).get('totalPrice', {}).get('discountPrice', 0)`). -/
structure TotalPrice where
  discountPrice : Option Int
deriving Repr, DecidableEq

structure Price where
  totalPrice : Option TotalPrice
deriving Repr, DecidableEq

/-- One element of `data.Catalog.searchStore.elements`, with the fields
the code reads. -/
structure CatalogItem where
  id : Option String
  title : Option String
  «namespace» : Option String
  description : Option String
  urlSlug : Option String
  price : Option Price
deriving Repr, DecidableEq

/-- The catalog response body, reduced to the `elements` list the code
extracts through `data.get('data', {}).get('Catalog', {})
.get('searchStore', {}).get('elements', [])` (any missing level yields
`[]`). -/
structure CatalogBody where
  elements : List CatalogItem
deriving Repr, DecidableEq

/-- The game dictionary `get_free_games` builds from a catalog entry. -/
structure Offer where
  id : Option String
  title : String
  «namespace» : Option String
  description : Option String
  url : String
deriving Repr, DecidableEq

/-- `item.get('price', {}).get('totalPrice', {}).get('discountPrice', 0)`. -/
def discountPrice (item : CatalogItem) : Int :=
  match item.price with
  | none => 0
  | some p =>
    match p.totalPrice with
    | none => 0
    | some t => t.discountPrice.getD 0

/-- `game_id in self.claimed_games` where `game_id` may be Python
`None`: `None` never equals a string in the list. -/
def claimedContains (claimed : List String) : Option String → Bool
  | none => false
  | some s => claimed.contains s

/-- The dictionary appended to `free_games`: note the Python f-string
renders a missing `urlSlug` as the literal `"None"`. -/
def toOffer (item : CatalogItem) : Offer :=
  { id := item.id
    title := item.title.getD "Unknown Game"
    «namespace» := item.«namespace»
    description := item.description
    url := "https://www.epicgames.com/store/en-US/p/" ++
      (match item.urlSlug with
       | some s => s
       | none => "None") }

/-- The `for item in elements` loop body of `get_free_games`: keep an
entry when its discount price is 0, then skip it when its id is already
claimed, else append the mapped offer. -/
def collectFreeGames (claimed : List String) : List CatalogItem → List Offer
  | [] => []
  | item :: rest =>
    if discountPrice item == 0 then
      if claimedContains claimed item.id then collectFreeGames claimed rest
      else toOffer item :: collectFreeGames claimed rest
    else collectFreeGames claimed rest

/-- Client state shared by catalog query and claim executor:
the credential, the in-memory claimed-games list, and the last ledger
contents written to disk by `_save_claimed_games`. -/
structure State where
  cred : Cred
  claimed_games : List String
  saved_claimed : List String
deriving Repr, DecidableEq

/-- `get_free_games`: fails fast with `[]` when `ensure_authenticated`
returns `False` (no catalog request); otherwise one GET to the
free-games endpoint, and on HTTP 200 with a parseable body the filtered
and mapped offer list; any other outcome yields `[]`.  The claimed-games
list is never mutated here. -/
def get_free_games (st : State) (now : Int)
    (refreshResp : HttpResult TokenBody)
    (catalogResp : HttpResult CatalogBody) :
    List Offer × State × List Event :=
  let e := ensure_authenticated st.cred now refreshResp
  if !e.ok then ([], { st with cred := e.cred }, e.events)
  else
    let st' := { st with cred := e.cred }
    match catalogResp with
    | .transportError => ([], st', e.events ++ [Event.catalogGet])
    | .response status body =>
      if status == 200 then
        match body with
        | none => ([], st', e.events ++ [Event.catalogGet])
        | some cb =>
          (collectFreeGames st'.claimed_games cb.elements, st',
            e.events ++ [Event.catalogGet])
      else ([], st', e.events ++ [Event.catalogGet])

/-- The `orderResponse` dictionary `claim_game` extracts through
`result.get('data', {}).get('purchaseOrder', {})
.get('orderResponse', {})` (missing levels collapse to a dictionary
with both fields absent). -/
structure OrderResponse where
  orderComplete : Option Bool
  orderError : Option String
deriving Repr, DecidableEq

/-- The game dictionary passed to `claim_game` (the fields it reads). -/
structure Game where
  id : Option String
  «namespace» : Option String
  title : Option String
deriving Repr, DecidableEq

/-- `claim_game(game)`: ensure authentication (failure → `False`);
local validation `not all([game_id, namespace, title])` → `False`
with no request; otherwise one POST of the purchase mutation to the
GraphQL endpoint; on HTTP 200 with a body whose `orderComplete` is
truthy, append the game id to `claimed_games`, save the ledger and
return `True`; every other outcome returns `False` with the ledger
untouched. -/
def claim_game (st : State) (now : Int)
    (refreshResp : HttpResult TokenBody)
    (claimResp : HttpResult OrderResponse)
    (game : Game) : Bool × State × List Event :=
  let e := ensure_authenticated st.cred now refreshResp
  if !e.ok then (false, { st with cred := e.cred }, e.events)
  else
    let st' := { st with cred := e.cred }
    if !(pyTruthy game.id && pyTruthy game.«namespace» && pyTruthy game.title) then
      (false, st', e.events)
    else
      match claimResp with
      | .transportError => (false, st', e.events ++ [Event.graphqlPost])
      | .response status body =>
        if status == 200 then
          match body with
          | none => (false, st', e.events ++ [Event.graphqlPost])
          | some pd =>
            if pd.orderComplete.getD false then
              let claimed' := st'.claimed_games ++ [game.id.getD ""]
              (true,
                { st' with
                    claimed_games := claimed'
                    saved_claimed := claimed' },
                e.events ++ [Event.graphqlPost, Event.saveClaimed])
            else (false, st', e.events ++ [Event.graphqlPost])
        else (false, st', e.events ++ [Event.graphqlPost])

/-- The login response hits the two-factor branch: HTTP 200, parseable
body, truthy `twoFactorRequired`. -/
def isTwoFactorResp : HttpResult LoginBody → Bool
  | .transportError => false
  | .response status body =>
    status == 200 &&
      (match body with
       | none => false
       | some lb => lb.twoFactorRequired.getD false)

/-- The three responses drive `login` down its full success path:
login 200/parseable without two-factor, redirect 200/parseable with an
extractable code, token exchange 200/parseable.  Its negation (together
with not hitting the two-factor branch) is exactly "some step failed at
the HTTP layer or during parsing". -/
def isLoginSuccessPath (lr : HttpResult LoginBody)
    (rr : HttpResult RedirectBody) (tr : HttpResult TokenBody) : Bool :=
  (match lr with
   | .response status (some lb) =>
     status == 200 && !lb.twoFactorRequired.getD false
   | _ => false) &&
  (match rr with
   | .response rstatus (some rb) =>
     rstatus == 200 && (extractCode (rb.redirectUrl.getD "")).isSome
   | _ => false) &&
  (match tr with
   | .response tstatus (some _) => tstatus == 200
   | _ => false)

section Lemmas

/-- A failed refresh leaves the credential exactly as it was. -/
theorem refresh_fail_frame (c : Cred) (now : Int) (r : HttpResult TokenBody)
    (h : (refresh_access_token c now r).1 = false) :
    (refresh_access_token c now r).2.1 = c := by
  by_cases hrt : pyTruthy c.refresh_token
  · cases r with
    | transportError => simp [refresh_access_token, hrt]
    | response status body =>
      by_cases hs : status == 200
      · cases body with
        | none => simp [refresh_access_token, hrt, hs]
        | some tb => simp [refresh_access_token, hrt, hs] at h
      · simp [refresh_access_token, hrt, hs]
  · simp [refresh_access_token, hrt]

/-- Refresh only ever touches the token endpoint and the session file. -/
theorem refresh_events_sub (c : Cred) (now : Int) (r : HttpResult TokenBody) :
    ∀ ev ∈ (refresh_access_token c now r).2.2,
      ev = Event.tokenPost ∨ ev = Event.saveSession := by
  by_cases hrt : pyTruthy c.refresh_token
  · cases r with
    | transportError => simp [refresh_access_token, hrt]
    | response status body =>
      by_cases hs : status == 200
      · cases body with
        | none => simp [refresh_access_token, hrt, hs]
        | some tb => simp [refresh_access_token, hrt, hs]
      · simp [refresh_access_token, hrt, hs]
  · simp [refresh_access_token, hrt]

/-- `ensure_authenticated` only ever touches the token endpoint and the
session file. -/
theorem ensure_events_sub (c : Cred) (now : Int) (r : HttpResult TokenBody) :
    ∀ ev ∈ (ensure_authenticated c now r).events,
      ev = Event.tokenPost ∨ ev = Event.saveSession := by
  by_cases hat : pyTruthy c.access_token
  · by_cases hexp : is_token_expired c now
    · intro ev hev
      refine refresh_events_sub c now r ev ?_
      simpa [ensure_authenticated, hat, hexp] using hev
    · simp [ensure_authenticated, hat, hexp]
  · simp [ensure_authenticated, hat]

/-- With a truthy, unexpired token `ensure_authenticated` is a pure
no-op returning `True`. -/
theorem ensure_valid (c : Cred) (now : Int) (r : HttpResult TokenBody)
    (hauth : pyTruthy c.access_token = true)
    (hfresh : is_token_expired c now = false) :
    ensure_authenticated c now r = ⟨true, c, 0, []⟩ := by
  unfold ensure_authenticated
  simp [hauth, hfresh]

/-- The catalog loop is the free-and-unclaimed filter followed by the
offer mapping. -/
theorem collectFreeGames_eq (claimed : List String) (l : List CatalogItem) :
    collectFreeGames claimed l =
      (l.filter (fun it =>
        discountPrice it == 0 && !claimedContains claimed it.id)).map toOffer := by
  induction l with
  | nil => rfl
  | cons item rest ih =>
    unfold collectFreeGames
    by_cases hfree : discountPrice item == 0
    · by_cases hcl : claimedContains claimed item.id
      · simp [hfree, hcl, ih]
      · simp [hfree, hcl, ih]
    · simp [hfree, ih]

end Lemmas

/-- C5: `ensure_authenticated` returns `False` with no network call
when no access token is present, and `True` with no network call when
the credential expires more than 300 seconds after `now`. -/
theorem C5_ensure_authenticated_fast_paths (c : Cred) (now : Int)
    (r : HttpResult TokenBody) :
    (pyTruthy c.access_token = false →
      ensure_authenticated c now r = ⟨false, c, 0, []⟩) ∧
    (pyTruthy c.access_token = true → now + 300 < c.expires_at →
      ensure_authenticated c now r = ⟨true, c, 0, []⟩) := by
  constructor
  · intro h
    simp [ensure_authenticated, h]
  · intro h hexp
    have hfresh : is_token_expired c now = false := by
      simp only [is_token_expired, decide_eq_false_iff_not, not_le]
      omega
    simp [ensure_authenticated, h, hfresh]

/-- Witness for C5: a credential with no token at all, and one expiring
at 1000 seen at time 0. -/
theorem C5_witness :
    ensure_authenticated ⟨none, none, none, 0⟩ 0 .transportError =
      ⟨false, ⟨none, none, none, 0⟩, 0, []⟩ ∧
    ensure_authenticated ⟨some "t", some "r", none, 1000⟩ 0 .transportError =
      ⟨true, ⟨some "t", some "r", none, 1000⟩, 0, []⟩ :=
  ⟨(C5_ensure_authenticated_fast_paths ⟨none, none, none, 0⟩ 0 .transportError).1
      (by decide),
   (C5_ensure_authenticated_fast_paths ⟨some "t", some "r", none, 1000⟩ 0
      .transportError).2 (by decide) (by decide)⟩

/-- C6: with a present access token already inside the 300-second
refresh window, `ensure_authenticated` invokes the refresh exactly
once; if that refresh fails, the call returns `False`, every credential
field is left untouched, and a subsequent call triggers the refresh
again. -/
theorem C6_ensure_authenticated_refresh_on_expiry (c : Cred) (now : Int)
    (r : HttpResult TokenBody)
    (hauth : pyTruthy c.access_token = true)
    (hexp : c.expires_at ≤ now + 300) :
    (ensure_authenticated c now r).refreshCalls = 1 ∧
    ((ensure_authenticated c now r).ok = false →
      (ensure_authenticated c now r).cred = c ∧
      ∀ r' : HttpResult TokenBody,
        (ensure_authenticated (ensure_authenticated c now r).cred now r').refreshCalls
          = 1) := by
  have hexp' : is_token_expired c now = true := by
    simp only [is_token_expired, decide_eq_true_eq]
    omega
  constructor
  · simp [ensure_authenticated, hauth, hexp']
  · intro hok
    have h1 : (refresh_access_token c now r).1 = false := by
      simpa [ensure_authenticated, hauth, hexp'] using hok
    have hcred : (ensure_authenticated c now r).cred = c := by
      simpa [ensure_authenticated, hauth, hexp'] using
        refresh_fail_frame c now r h1
    refine ⟨hcred, fun r' => ?_⟩
    rw [hcred]
    simp [ensure_authenticated, hauth, hexp']

/-- Witness for C6: a credential expiring at 100 seen at time 0, with a
refresh attempt that dies at the transport layer. -/
theorem C6_witness :
    (ensure_authenticated ⟨some "t", some "r", some "a", 100⟩ 0
        .transportError).refreshCalls = 1 ∧
    ((ensure_authenticated ⟨some "t", some "r", some "a", 100⟩ 0
        .transportError).ok = false →
      (ensure_authenticated ⟨some "t", some "r", some "a", 100⟩ 0
          .transportError).cred = ⟨some "t", some "r", some "a", 100⟩ ∧
      ∀ r' : HttpResult TokenBody,
        (ensure_authenticated
          (ensure_authenticated ⟨some "t", some "r", some "a", 100⟩ 0
            .transportError).cred 0 r').refreshCalls = 1) :=
  C6_ensure_authenticated_refresh_on_expiry ⟨some "t", some "r", some "a", 100⟩ 0
    .transportError (by decide) (by decide)

/-- C9: with a valid unexpired credential, `claim_game` on a game
record missing (or empty) id, namespace or title returns `False`
immediately: no request of any kind is made and the state — the
claimed-games ledger in particular — is unchanged. -/
theorem C9_claim_game_validation_failure (st : State) (now : Int)
    (r : HttpResult TokenBody) (claimResp : HttpResult OrderResponse)
    (game : Game)
    (hauth : pyTruthy st.cred.access_token = true)
    (hfresh : is_token_expired st.cred now = false)
    (hbad : (pyTruthy game.id && pyTruthy game.«namespace» &&
      pyTruthy game.title) = false) :
    claim_game st now r claimResp game = (false, st, []) := by
  have he := ensure_valid st.cred now r hauth hfresh
  simp [claim_game, he, hbad]

/-- Witness for C9: a game record whose namespace is absent. -/
theorem C9_witness :
    claim_game ⟨⟨some "tok", some "r", some "a", 10000⟩, ["x"], ["x"]⟩ 0
      .transportError (.response 200 (some ⟨some true, none⟩))
      ⟨some "g", none, some "T"⟩ =
    (false, ⟨⟨some "tok", some "r", some "a", 10000⟩, ["x"], ["x"]⟩, []) :=
  C9_claim_game_validation_failure
    ⟨⟨some "tok", some "r", some "a", 10000⟩, ["x"], ["x"]⟩ 0 .transportError
    (.response 200 (some ⟨some true, none⟩)) ⟨some "g", none, some "T"⟩
    (by decide) (by decide) (by decide)

/-- C4: when `ensure_authenticated` fails, `get_free_games` returns the
empty list and never contacts the catalog endpoint. -/
theorem C4_get_free_games_not_authenticated (st : State) (now : Int)
    (r : HttpResult TokenBody) (catalogResp : HttpResult CatalogBody)
    (h : (ensure_authenticated st.cred now r).ok = false) :
    (get_free_games st now r catalogResp).1 = [] ∧
    Event.catalogGet ∉ (get_free_games st now r catalogResp).2.2 := by
  constructor
  · simp [get_free_games, h]
  · intro hmem
    have hmem' : Event.catalogGet ∈ (ensure_authenticated st.cred now r).events := by
      simpa [get_free_games, h] using hmem
    rcases ensure_events_sub st.cred now r _ hmem' with h1 | h1 <;> simp at h1

/-- Witness for C4: a client with no access token asking for free games
while the catalog would have answered. -/
theorem C4_witness :
    (get_free_games ⟨⟨none, none, none, 0⟩, [], []⟩ 0 .transportError
      (.response 200 (some ⟨[]⟩))).1 = [] ∧
    Event.catalogGet ∉
      (get_free_games ⟨⟨none, none, none, 0⟩, [], []⟩ 0 .transportError
        (.response 200 (some ⟨[]⟩))).2.2 :=
  C4_get_free_games_not_authenticated ⟨⟨none, none, none, 0⟩, [], []⟩ 0
    .transportError (.response 200 (some ⟨[]⟩)) (by decide)

/-- C2: for an authenticated call on a well-formed game, `claim_game`
returns `True` exactly when the transaction response is HTTP 200 with a
body whose `orderComplete` is `true`; on success the game id is
appended to the ledger and the ledger is persisted before the call
returns; on every other outcome the call returns `False` with the state
(ledger included) unchanged. -/
theorem C2_claim_game_success_iff (st : State) (now : Int)
    (r : HttpResult TokenBody) (claimResp : HttpResult OrderResponse)
    (game : Game) (gid : String)
    (hauth : pyTruthy st.cred.access_token = true)
    (hfresh : is_token_expired st.cred now = false)
    (hid : game.id = some gid)
    (hok : (pyTruthy game.id && pyTruthy game.«namespace» &&
      pyTruthy game.title) = true) :
    ((claim_game st now r claimResp game).1 = true ↔
      ∃ pd, claimResp = .response 200 (some pd) ∧ pd.orderComplete = some true) ∧
    ((claim_game st now r claimResp game).1 = true →
      (claim_game st now r claimResp game).2.1.claimed_games =
        st.claimed_games ++ [gid] ∧
      (claim_game st now r claimResp game).2.1.saved_claimed =
        st.claimed_games ++ [gid] ∧
      Event.saveClaimed ∈ (claim_game st now r claimResp game).2.2) ∧
    ((claim_game st now r claimResp game).1 = false →
      (claim_game st now r claimResp game).2.1 = st) := by
  have he := ensure_valid st.cred now r hauth hfresh
  have hok' := hok
  rw [Bool.and_eq_true, Bool.and_eq_true] at hok'
  obtain ⟨⟨h1, h2⟩, h3⟩ := hok'
  rw [hid] at h1
  cases claimResp with
  | transportError => simp [claim_game, he, hok]
  | response status body =>
    by_cases hs : status == 200
    · have hs' : status = 200 := by simpa using hs
      subst hs'
      cases body with
      | none => simp [claim_game, he, hok]
      | some pd =>
        cases hoc : pd.orderComplete with
        | none => simp [claim_game, he, hok, hoc]
        | some b =>
          cases b with
          | false => simp [claim_game, he, hok, hoc]
          | true => simp [claim_game, he, hok, hoc, hid, h1, h2, h3]
    · have hs' : status ≠ 200 := by simpa using hs
      simp [claim_game, he, hok, hs, hs']

/-- Witness for C2: a successful transaction for game id `"g"`. -/
theorem C2_witness :
    ((claim_game ⟨⟨some "tok", some "r", none, 10000⟩, [], []⟩ 0 .transportError
        (.response 200 (some ⟨some true, none⟩)) ⟨some "g", some "ns", some "T"⟩).1
        = true ↔
      ∃ pd, (HttpResult.response 200 (some ⟨some true, none⟩) :
          HttpResult OrderResponse) = .response 200 (some pd) ∧
        pd.orderComplete = some true) ∧
    ((claim_game ⟨⟨some "tok", some "r", none, 10000⟩, [], []⟩ 0 .transportError
        (.response 200 (some ⟨some true, none⟩)) ⟨some "g", some "ns", some "T"⟩).1
        = true →
      (claim_game ⟨⟨some "tok", some "r", none, 10000⟩, [], []⟩ 0 .transportError
        (.response 200 (some ⟨some true, none⟩))
        ⟨some "g", some "ns", some "T"⟩).2.1.claimed_games = [] ++ ["g"] ∧
      (claim_game ⟨⟨some "tok", some "r", none, 10000⟩, [], []⟩ 0 .transportError
        (.response 200 (some ⟨some true, none⟩))
        ⟨some "g", some "ns", some "T"⟩).2.1.saved_claimed = [] ++ ["g"] ∧
      Event.saveClaimed ∈
        (claim_game ⟨⟨some "tok", some "r", none, 10000⟩, [], []⟩ 0 .transportError
          (.response 200 (some ⟨some true, none⟩))
          ⟨some "g", some "ns", some "T"⟩).2.2) ∧
    ((claim_game ⟨⟨some "tok", some "r", none, 10000⟩, [], []⟩ 0 .transportError
        (.response 200 (some ⟨some true, none⟩)) ⟨some "g", some "ns", some "T"⟩).1
        = false →
      (claim_game ⟨⟨some "tok", some "r", none, 10000⟩, [], []⟩ 0 .transportError
        (.response 200 (some ⟨some true, none⟩))
        ⟨some "g", some "ns", some "T"⟩).2.1 =
        ⟨⟨some "tok", some "r", none, 10000⟩, [], []⟩) :=
  C2_claim_game_success_iff ⟨⟨some "tok", some "r", none, 10000⟩, [], []⟩ 0
    .transportError (.response 200 (some ⟨some true, none⟩))
    ⟨some "g", some "ns", some "T"⟩ "g" (by decide) (by decide) rfl (by decide)

/-- C1 counterexample: with offer id `"c"` already committed to the
ledger by a previous successful claim, a second `claim_game` call whose
transaction also reports `orderComplete: true` appends the id again —
the ledger afterwards holds two copies of `"c"`, not exactly one. -/
theorem C1_counterexample_duplicate_append :
    (claim_game ⟨⟨some "tok", some "r", some "acct", 10000⟩, ["c"], ["c"]⟩ 0
      .transportError (.response 200 (some ⟨some true, none⟩))
      ⟨some "c", some "ns", some "T"⟩).1 = true ∧
    ¬((claim_game ⟨⟨some "tok", some "r", some "acct", 10000⟩, ["c"], ["c"]⟩ 0
      .transportError (.response 200 (some ⟨some true, none⟩))
      ⟨some "c", some "ns", some "T"⟩).2.1.claimed_games.count "c" = 1) ∧
    (claim_game ⟨⟨some "tok", some "r", some "acct", 10000⟩, ["c"], ["c"]⟩ 0
      .transportError (.response 200 (some ⟨some true, none⟩))
      ⟨some "c", some "ns", some "T"⟩).2.1.claimed_games.count "c" = 2 := by
  decide

/-- C1 (amended): a second `claim_game` call on an id already in the
ledger still performs the real claim transaction — there is no
client-side short-circuit on ledger membership — and if the second
transaction does not report success the ledger keeps exactly one copy
of the id; but if the second transaction reports `orderComplete: true`
the id is appended again, leaving two copies. -/
theorem C1_claim_game_second_call (st : State) (now : Int)
    (r : HttpResult TokenBody) (claimResp : HttpResult OrderResponse)
    (game : Game) (gid : String)
    (hauth : pyTruthy st.cred.access_token = true)
    (hfresh : is_token_expired st.cred now = false)
    (hid : game.id = some gid)
    (hok : (pyTruthy game.id && pyTruthy game.«namespace» &&
      pyTruthy game.title) = true)
    (hcount : st.claimed_games.count gid = 1) :
    Event.graphqlPost ∈ (claim_game st now r claimResp game).2.2 ∧
    ((claim_game st now r claimResp game).1 = false →
      (claim_game st now r claimResp game).2.1.claimed_games.count gid = 1) ∧
    ((claim_game st now r claimResp game).1 = true →
      (claim_game st now r claimResp game).2.1.claimed_games.count gid = 2) := by
  have he := ensure_valid st.cred now r hauth hfresh
  have hok' := hok
  rw [Bool.and_eq_true, Bool.and_eq_true] at hok'
  obtain ⟨⟨h1, h2⟩, h3⟩ := hok'
  rw [hid] at h1
  cases claimResp with
  | transportError => simp [claim_game, he, hok, hcount]
  | response status body =>
    by_cases hs : status == 200
    · have hs' : status = 200 := by simpa using hs
      subst hs'
      cases body with
      | none => simp [claim_game, he, hok, hcount]
      | some pd =>
        cases hoc : pd.orderComplete.getD false
        · simp [claim_game, he, hok, hoc, hcount]
        · simp [claim_game, he, hok, hoc, hid, h1, h2, h3,
            List.count_append, hcount]
    · simp [claim_game, he, hok, hs, hcount]

/-- Witness for C1's amended theorem: the counterexample state with a
failing second transaction. -/
theorem C1_witness :
    Event.graphqlPost ∈
      (claim_game ⟨⟨some "tok", some "r", some "acct", 10000⟩, ["c"], ["c"]⟩ 0
        .transportError (.response 200 (some ⟨some false, some "err"⟩))
        ⟨some "c", some "ns", some "T"⟩).2.2 ∧
    ((claim_game ⟨⟨some "tok", some "r", some "acct", 10000⟩, ["c"], ["c"]⟩ 0
        .transportError (.response 200 (some ⟨some false, some "err"⟩))
        ⟨some "c", some "ns", some "T"⟩).1 = false →
      (claim_game ⟨⟨some "tok", some "r", some "acct", 10000⟩, ["c"], ["c"]⟩ 0
        .transportError (.response 200 (some ⟨some false, some "err"⟩))
        ⟨some "c", some "ns", some "T"⟩).2.1.claimed_games.count "c" = 1) ∧
    ((claim_game ⟨⟨some "tok", some "r", some "acct", 10000⟩, ["c"], ["c"]⟩ 0
        .transportError (.response 200 (some ⟨some false, some "err"⟩))
        ⟨some "c", some "ns", some "T"⟩).1 = true →
      (claim_game ⟨⟨some "tok", some "r", some "acct", 10000⟩, ["c"], ["c"]⟩ 0
        .transportError (.response 200 (some ⟨some false, some "err"⟩))
        ⟨some "c", some "ns", some "T"⟩).2.1.claimed_games.count "c" = 2) :=
  C1_claim_game_second_call
    ⟨⟨some "tok", some "r", some "acct", 10000⟩, ["c"], ["c"]⟩ 0 .transportError
    (.response 200 (some ⟨some false, some "err"⟩)) ⟨some "c", some "ns", some "T"⟩
    "c" (by decide) (by decide) rfl (by decide) (by decide)

/-- C3: on a parsed catalog response, `get_free_games` returns exactly
the entries with discount price zero whose id is not in the claimed
ledger, mapped to offer records in catalog order; the ledger is not
mutated; and every returned offer's id is outside the ledger. -/
theorem C3_get_free_games_filter (st : State) (now : Int)
    (r : HttpResult TokenBody) (cb : CatalogBody)
    (hauth : pyTruthy st.cred.access_token = true)
    (hfresh : is_token_expired st.cred now = false) :
    (get_free_games st now r (.response 200 (some cb))).1 =
      (cb.elements.filter (fun it =>
        discountPrice it == 0 && !claimedContains st.claimed_games it.id)).map
        toOffer ∧
    (get_free_games st now r (.response 200 (some cb))).2.1.claimed_games =
      st.claimed_games ∧
    ∀ o ∈ (get_free_games st now r (.response 200 (some cb))).1,
      claimedContains st.claimed_games o.id = false := by
  have he := ensure_valid st.cred now r hauth hfresh
  have hmain : (get_free_games st now r (.response 200 (some cb))).1 =
      collectFreeGames st.claimed_games cb.elements := by
    simp [get_free_games, he]
  refine ⟨?_, ?_, ?_⟩
  · rw [hmain, collectFreeGames_eq]
  · simp [get_free_games, he]
  · intro o ho
    rw [hmain, collectFreeGames_eq] at ho
    rcases List.mem_map.mp ho with ⟨it, hit, rfl⟩
    have hfil := (List.mem_filter.mp hit).2
    have hcl := (Bool.and_eq_true _ _ |>.mp hfil).2
    have : claimedContains st.claimed_games it.id = false := by
      simpa using hcl
    simpa [toOffer] using this

/-- Witness for C3: the spec's three-entry catalog with ledger
`["a"]`. -/
theorem C3_witness :
    (get_free_games ⟨⟨some "tok", some "r", none, 10000⟩, ["a"], ["a"]⟩ 0
      .transportError (.response 200 (some ⟨[
        ⟨some "a", some "A", some "na", none, some "sa", some ⟨some ⟨some 0⟩⟩⟩,
        ⟨some "b", some "B", some "nb", none, some "sb", some ⟨some ⟨some 500⟩⟩⟩,
        ⟨some "c", some "C", some "nc", none, some "sc", some ⟨some ⟨some 0⟩⟩⟩]⟩))).1
      = ([
        ⟨some "a", some "A", some "na", none, some "sa", some ⟨some ⟨some 0⟩⟩⟩,
        ⟨some "b", some "B", some "nb", none, some "sb", some ⟨some ⟨some 500⟩⟩⟩,
        (⟨some "c", some "C", some "nc", none, some "sc", some ⟨some ⟨some 0⟩⟩⟩ :
          CatalogItem)].filter (fun it =>
          discountPrice it == 0 && !claimedContains ["a"] it.id)).map toOffer ∧
    (get_free_games ⟨⟨some "tok", some "r", none, 10000⟩, ["a"], ["a"]⟩ 0
      .transportError (.response 200 (some ⟨[
        ⟨some "a", some "A", some "na", none, some "sa", some ⟨some ⟨some 0⟩⟩⟩,
        ⟨some "b", some "B", some "nb", none, some "sb", some ⟨some ⟨some 500⟩⟩⟩,
        ⟨some "c", some "C", some "nc", none, some "sc", some ⟨some ⟨some 0⟩⟩⟩]⟩))).2.1.claimed_games
      = ["a"] ∧
    ∀ o ∈ (get_free_games ⟨⟨some "tok", some "r", none, 10000⟩, ["a"], ["a"]⟩ 0
      .transportError (.response 200 (some ⟨[
        ⟨some "a", some "A", some "na", none, some "sa", some ⟨some ⟨some 0⟩⟩⟩,
        ⟨some "b", some "B", some "nb", none, some "sb", some ⟨some ⟨some 500⟩⟩⟩,
        ⟨some "c", some "C", some "nc", none, some "sc", some ⟨some ⟨some 0⟩⟩⟩]⟩))).1,
      claimedContains ["a"] o.id = false :=
  C3_get_free_games_filter ⟨⟨some "tok", some "r", none, 10000⟩, ["a"], ["a"]⟩ 0
    .transportError ⟨[
      ⟨some "a", some "A", some "na", none, some "sa", some ⟨some ⟨some 0⟩⟩⟩,
      ⟨some "b", some "B", some "nb", none, some "sb", some ⟨some ⟨some 500⟩⟩⟩,
      ⟨some "c", some "C", some "nc", none, some "sc", some ⟨some ⟨some 0⟩⟩⟩]⟩
    (by decide) (by decide)

/-- C10: a catalog entry with no `price` field (or no `totalPrice` /
`discountPrice` sub-field) has discount price 0 and, when its id is not
in the claimed ledger, its mapped offer appears in the list
`get_free_games` returns. -/
theorem C10_missing_price_is_free (st : State) (now : Int)
    (r : HttpResult TokenBody) (cb : CatalogBody) (item : CatalogItem)
    (hauth : pyTruthy st.cred.access_token = true)
    (hfresh : is_token_expired st.cred now = false)
    (hmem : item ∈ cb.elements)
    (hprice : item.price = none ∨
      (∃ p, item.price = some p ∧ p.totalPrice = none) ∨
      (∃ p t, item.price = some p ∧ p.totalPrice = some t ∧
        t.discountPrice = none))
    (hnc : claimedContains st.claimed_games item.id = false) :
    discountPrice item = 0 ∧
    toOffer item ∈ (get_free_games st now r (.response 200 (some cb))).1 := by
  have hdp : discountPrice item = 0 := by
    rcases hprice with h | ⟨p, hp, ht⟩ | ⟨p, t, hp, ht, hd⟩ <;>
      simp [discountPrice, *]
  have he := ensure_valid st.cred now r hauth hfresh
  refine ⟨hdp, ?_⟩
  have hmain : (get_free_games st now r (.response 200 (some cb))).1 =
      collectFreeGames st.claimed_games cb.elements := by
    simp [get_free_games, he]
  rw [hmain, collectFreeGames_eq]
  exact List.mem_map_of_mem _
    (List.mem_filter.mpr ⟨hmem, by simp [hdp, hnc]⟩)

/-- Witness for C10: a catalog whose only entry has no price field. -/
theorem C10_witness :
    discountPrice ⟨some "d", some "D", some "nd", none, none, none⟩ = 0 ∧
    toOffer ⟨some "d", some "D", some "nd", none, none, none⟩ ∈
      (get_free_games ⟨⟨some "tok", some "r", none, 10000⟩, [], []⟩ 0
        .transportError (.response 200 (some
          ⟨[⟨some "d", some "D", some "nd", none, none, none⟩]⟩))).1 :=
  C10_missing_price_is_free ⟨⟨some "tok", some "r", none, 10000⟩, [], []⟩ 0
    .transportError ⟨[⟨some "d", some "D", some "nd", none, none, none⟩]⟩
    ⟨some "d", some "D", some "nd", none, none, none⟩
    (by decide) (by decide) (by simp) (Or.inl rfl) (by decide)

/-- C8: a login response of HTTP 200 whose body carries
`twoFactorRequired: true` and a method makes `login` return the
two-factor tuple `(False, method)` with the credential untouched and
only the login request on the wire (nothing persisted); a client that
was unauthenticated before the call is still rejected by
`ensure_authenticated` afterwards. -/
theorem C8_login_two_factor_required (c : Cred) (now now' : Int)
    (rr : HttpResult RedirectBody) (tr r' : HttpResult TokenBody)
    (lb : LoginBody) (m : String)
    (h2 : lb.twoFactorRequired = some true)
    (hm : lb.method = some m)
    (hc : pyTruthy c.access_token = false) :
    login c now (.response 200 (some lb)) rr tr =
      ((false, some m), c, [Event.loginPost]) ∧
    (ensure_authenticated c now' r').ok = false := by
  constructor
  · simp [login, h2, hm]
  · simp [ensure_authenticated, hc]

/-- Witness for C8: provider answers `twoFactorRequired: true`,
`method: "email"` to a tokenless client. -/
theorem C8_witness :
    login ⟨none, none, none, 0⟩ 0
      (.response 200 (some ⟨some true, some "email"⟩)) .transportError
      .transportError =
      ((false, some "email"), ⟨none, none, none, 0⟩, [Event.loginPost]) ∧
    (ensure_authenticated ⟨none, none, none, 0⟩ 0 .transportError).ok = false :=
  C8_login_two_factor_required ⟨none, none, none, 0⟩ 0 0 .transportError
    .transportError .transportError ⟨some true, some "email"⟩ "email"
    rfl rfl (by decide)

/-- C7: whenever the three responses neither hit the two-factor branch
nor drive the full success path — that is, some step of the login flow
failed at the HTTP layer or during parsing — `login` returns the failed
tuple `(False, None)`, the credential is exactly as before, and the
session file is never written. -/
theorem C7_login_failure_frame (c : Cred) (now : Int)
    (lr : HttpResult LoginBody) (rr : HttpResult RedirectBody)
    (tr : HttpResult TokenBody)
    (h2fa : isTwoFactorResp lr = false)
    (hsucc : isLoginSuccessPath lr rr tr = false) :
    (login c now lr rr tr).1 = (false, none) ∧
    (login c now lr rr tr).2.1 = c ∧
    Event.saveSession ∉ (login c now lr rr tr).2.2 := by
  cases lr with
  | transportError => simp [login]
  | response status body =>
    by_cases hs : status == 200
    · cases body with
      | none => simp [login, hs]
      | some lb =>
        have hnot2fa : lb.twoFactorRequired.getD false = false := by
          simpa [isTwoFactorResp, hs] using h2fa
        cases rr with
        | transportError => simp [login, hs, hnot2fa]
        | response rstatus rbody =>
          by_cases hrs : rstatus == 200
          · cases rbody with
            | none => simp [login, hs, hnot2fa, hrs]
            | some rb =>
              cases hcode : extractCode (rb.redirectUrl.getD "") with
              | none => simp [login, hs, hnot2fa, hrs, hcode]
              | some code =>
                cases tr with
                | transportError => simp [login, hs, hnot2fa, hrs, hcode]
                | response tstatus tbody =>
                  by_cases hts : tstatus == 200
                  · cases tbody with
                    | none => simp [login, hs, hnot2fa, hrs, hcode, hts]
                    | some tb =>
                      exfalso
                      simp [isLoginSuccessPath, hs, hnot2fa, hrs, hcode,
                        hts] at hsucc
                  · simp [login, hs, hnot2fa, hrs, hcode, hts]
          · simp [login, hs, hnot2fa, hrs]
    · simp [login, hs]

/-- Witness for C7: after a clean initial login response the redirect
body fails to parse. -/
theorem C7_witness :
    (login ⟨some "old", some "or", some "oa", 50⟩ 0
      (.response 200 (some ⟨some false, none⟩))
      (.response 200 none) (.response 400 none)).1 = (false, none) ∧
    (login ⟨some "old", some "or", some "oa", 50⟩ 0
      (.response 200 (some ⟨some false, none⟩))
      (.response 200 none) (.response 400 none)).2.1 =
      ⟨some "old", some "or", some "oa", 50⟩ ∧
    Event.saveSession ∉
      (login ⟨some "old", some "or", some "oa", 50⟩ 0
        (.response 200 (some ⟨some false, none⟩))
        (.response 200 none) (.response 400 none)).2.2 :=
  C7_login_failure_frame ⟨some "old", some "or", some "oa", 50⟩ 0
    (.response 200 (some ⟨some false, none⟩))
    (.response 200 none) (.response 400 none) (by decide) (by decide)

end EpicGames
